import Mathlib

/-!
Verification of `Functions/GMSH/gen_3D_mesh.py` (pyleecan).

The gmsh backend is modelled as a trace of primitive calls (`GmshCall`).
`gen_3D_mesh` is translated statement by statement from the Python source:
it returns the outcome of the run together with the ordered list of backend
calls issued up to the point where the run ends (successfully or not).

Conventions of the backend model:
* coordinates, mesh sizes and lengths are rationals;
* rotation angles are recorded in units of pi (the source computes
  `(ii + 1) * 2 * pi / 36`, recorded here as the rational `(ii + 1) * 2 / 36`);
* gmsh handle allocation: entity tags of one dimension are allocated
  monotonically from 1; `copy` of a surface yields the next free surface tag,
  `extrude` of one surface yields the next free volume tag (volumes are
  numbered 1, 2, ... in extrusion order), as the source relies on
  (`list(range(1, Zs + 1))` on line 83).
-/

namespace Pyleecan

/-- Kind of a boundary segment. The Python source dispatches with
`isinstance(line, Arc)`: `arc` corresponds to `Arc` instances, `line` to
`Segment` (straight) instances, and `other` stands for any further object a
boundary could hold (used to examine the unrecognized-kind behaviour). -/
inductive SegKind
  | line
  | arc
  | other
deriving DecidableEq, Repr

/-- One element of `tooth_surf.get_lines()`: its kind, its begin point
`get_begin()` and (meaningful for arcs) its center `get_center()`, both as
2D points (real and imaginary part of the Python complex). -/
structure Seg where
  kind : SegKind
  zbegin : ℚ × ℚ
  zcenter : ℚ × ℚ
deriving DecidableEq, Repr

/-- A primitive call to the gmsh backend, in the order the source issues
them.  `rotate` records the pivot point, the axis vector and the angle in
units of pi; `extrude` records the swept dim-tags, the displacement and the
`numElements` list. -/
inductive GmshCall
  | init
  | setNumber (opt : String) (v : ℚ)
  | addModel (mname : String)
  | addPoint (x y z size : ℚ) (tag : ℕ)
  | addLine (p1 p2 tag : ℕ)
  | addCircleArc (pstart pcenter pend tag : ℕ)
  | addCurveLoop (curves : List ℕ) (tag : ℕ)
  | addPlaneSurface (loops : List ℕ) (tag : ℕ)
  | addPhysicalGroup (dim : ℕ) (tags : List ℕ) (gid : ℕ)
  | setPhysicalName (dim gid : ℕ) (pname : String)
  | copy (dimTags : List (ℕ × ℕ))
  | rotate (dimTags : List (ℕ × ℕ)) (x y z ax ay az angleOverPi : ℚ)
  | extrude (dimTags : List (ℕ × ℕ)) (dx dy dz : ℚ) (numElements : List ℕ)
  | synchronize
  | generate (dim : ℕ)
  | write (path : String)
  | finalize
deriving DecidableEq, Repr

/-- Lines 38-42 of the source: one `addPoint` per boundary segment, at the
segment's begin point, height `-L/2`, with tags `NPoint = 1, 2, ...` in
iteration order. -/
def pointCalls (lines : List Seg) (L ms : ℚ) : List GmshCall :=
  lines.enum.map fun p =>
    GmshCall.addPoint p.2.zbegin.1 p.2.zbegin.2 (-L / 2) ms (p.1 + 1)

/-- Lines 45-63 of the source: the curve-creation loop.  `n` is
`len(tooth_surf.get_lines())`, `nline` and `npoint` are the running values
of `NLine` and `NPoint` before the current iteration.  Note the source's
last-segment arc branch: after `NPoint += 1; addPoint(..., NPoint)` it calls
`addCircleArc(NLine, NPoint - 1, 1, NLine)`, hence the `npoint + 1 - 1`
center handle below. -/
def curveCalls (L ms : ℚ) (n : ℕ) : List Seg → ℕ → ℕ → List GmshCall
  | [], _, _ => []
  | s :: rest, nline, npoint =>
    if nline + 1 = n then
      if s.kind = SegKind.arc then
        GmshCall.addPoint s.zcenter.1 s.zcenter.2 (-L / 2) ms (npoint + 1)
          :: GmshCall.addCircleArc (nline + 1) (npoint + 1 - 1) 1 (nline + 1)
          :: curveCalls L ms n rest (nline + 1) (npoint + 1)
      else
        GmshCall.addLine (nline + 1) 1 (nline + 1)
          :: curveCalls L ms n rest (nline + 1) npoint
    else
      if s.kind = SegKind.arc then
        GmshCall.addPoint s.zcenter.1 s.zcenter.2 (-L / 2) ms (npoint + 1)
          :: GmshCall.addCircleArc (nline + 1) (npoint + 1) (nline + 2) (nline + 1)
          :: curveCalls L ms n rest (nline + 1) (npoint + 1)
      else
        GmshCall.addLine (nline + 1) (nline + 2) (nline + 1)
          :: curveCalls L ms n rest (nline + 1) npoint

/-- Lines 37-69 of the source: points, curves, curve loop
(`list(range(1, NLine + 1))`), plane surface and the "Tooth" physical
group.  After the point loop `NPoint = len(lines)`, which is the initial
`npoint` of the curve loop. -/
def toothCalls (lines : List Seg) (L ms : ℚ) : List GmshCall :=
  pointCalls lines L ms
    ++ curveCalls L ms lines.length lines 0 lines.length
    ++ [GmshCall.addCurveLoop (List.range' 1 lines.length) 1,
        GmshCall.addPlaneSurface [1] 1,
        GmshCall.addPhysicalGroup 2 [1] 1,
        GmshCall.setPhysicalName 2 1 ("Tooth")]

/-- Lines 72-76 of the source: `for ii in range(Zs)`, each iteration copies
surface `(2, 1)` (the copy receives the next free surface tag, `ii + 2`) and
rotates it about point `(0, 0, -L/2)`, axis `(0, 0, 1)`, by angle
`(ii + 1) * 2 * pi / 36`. -/
def replicateCalls (Zs : ℕ) (L : ℚ) : List GmshCall :=
  ((List.range Zs).map fun ii =>
    [GmshCall.copy [(2, 1)],
     GmshCall.rotate [(2, ii + 2)] 0 0 (-L / 2) 0 0 1 (((ii : ℚ) + 1) * 2 / 36)]).flatten

/-- Lines 72-76 of the source: the Python list `surf_list`, starting as
`[1]` and appending the tag of each copy (`ov[0][1] = ii + 2`). -/
def surf_list (Zs : ℕ) : List ℕ :=
  1 :: (List.range Zs).map (fun ii => ii + 2)

/-- Lines 80-82 of the source: one `extrude` call per element of
`surf_list`, displacement `(0, 0, L)`, `numElements=[Nlayer]`. -/
def extrudeCalls (surfs : List ℕ) (L : ℚ) (Nlayer : ℕ) : List GmshCall :=
  surfs.map fun s => GmshCall.extrude [(2, s)] 0 0 L [Nlayer]

/-- Backend handle model for extrusion: each `extrude` of one surface
produces exactly one new volume, receiving the next free volume tag, so the
volumes produced for `surfs` are `1, 2, ..., surfs.length` in extrusion
order. -/
def extrudeVolumes (surfs : List ℕ) : List ℕ :=
  List.range' 1 surfs.length

/-- The lamination data actually read by `gen_3D_mesh`: the tooth boundary
(`lamination.slot.get_surface_tooth().get_lines()`), the lamination length
`lamination.L1`, the slot count `lamination.slot.Zs`, and the flag
`lamination.is_stator`. -/
structure LamData where
  tooth : List Seg
  L : ℚ
  Zs : ℕ
  is_stator : Bool
deriving DecidableEq, Repr

/-- Lines 33-90 of the source: every backend call from `gmsh.initialize`
through `factory.synchronize()`. -/
def buildCalls (lam : LamData) (ms : ℚ) (Nlayer : ℕ) : List GmshCall :=
  [GmshCall.init,
   GmshCall.setNumber ("General.Terminal") 1,
   GmshCall.addModel ("Pyleecan")]
  ++ toothCalls lam.tooth lam.L ms
  ++ replicateCalls lam.Zs lam.L
  ++ [GmshCall.addPhysicalGroup 2 (surf_list lam.Zs) 2,
      GmshCall.setPhysicalName 2 2 ("Lamination")]
  ++ extrudeCalls (surf_list lam.Zs) lam.L Nlayer
  ++ [GmshCall.addPhysicalGroup 3 (List.range' 1 lam.Zs) 1,
      GmshCall.setPhysicalName 3 1 (if lam.is_stator then ("stator") else ("rotor"))]
  ++ [GmshCall.synchronize]

/-- Failure taxonomy of a run. -/
inductive PipeError
  | geometryError (msg : String)
  | meshGenerationError
  | ioError
deriving DecidableEq, Repr

/-- Lines 33-95 of the source, after the lamination fields have been read:
the whole straight-line body.  `meshGenOk` / `writeOk` model whether the
backend calls `gmsh.model.mesh.generate(3)` / `gmsh.write(save_path)`
succeed; a raised backend exception propagates out of the Python function,
so the trace stops right after the failing call (there is no
`try`/`finally` in the source). -/
def gen_3D_mesh (lam : LamData) (save_path : String) (ms : ℚ) (Nlayer : ℕ)
    (meshGenOk writeOk : Bool) : Except PipeError Unit × List GmshCall :=
  let pre := buildCalls lam ms Nlayer
  if meshGenOk then
    if writeOk then
      (Except.ok (), pre ++ [GmshCall.generate 3, GmshCall.write save_path, GmshCall.finalize])
    else
      (Except.error PipeError.ioError, pre ++ [GmshCall.generate 3, GmshCall.write save_path])
  else
    (Except.error PipeError.meshGenerationError, pre ++ [GmshCall.generate 3])

/-- The lamination as accessed by the source, with each read fallible
(`get_surface_tooth()` on line 24, `L1` on line 29, `slot.Zs` on line 30):
a Python exception from any of these propagates out of `gen_3D_mesh`. -/
structure LamSource where
  get_surface_tooth : Except String (List Seg)
  L1 : Except String ℚ
  slot_Zs : Except String ℕ
  is_stator : Bool

/-- Lines 24-95 of the source: the three lamination reads happen (in source
order) before `gmsh.initialize(sys.argv)` on line 33, so a failing read ends
the run with an empty backend trace. -/
def gen_3D_mesh_run (lam : LamSource) (save_path : String) (ms : ℚ) (Nlayer : ℕ)
    (meshGenOk writeOk : Bool) : Except PipeError Unit × List GmshCall :=
  match lam.get_surface_tooth with
  | Except.error e => (Except.error (PipeError.geometryError e), [])
  | Except.ok tooth =>
    match lam.L1 with
    | Except.error e => (Except.error (PipeError.geometryError e), [])
    | Except.ok L =>
      match lam.slot_Zs with
      | Except.error e => (Except.error (PipeError.geometryError e), [])
      | Except.ok Zs =>
        gen_3D_mesh ⟨tooth, L, Zs, lam.is_stator⟩ save_path ms Nlayer meshGenOk writeOk

/-! ### Trace observations -/

/-- The curve-creating calls of a trace, as `(start, terminal, tag)` triples
(the arc center handle is not an endpoint of the curve). -/
def curveOf : GmshCall → Option (ℕ × ℕ × ℕ)
  | GmshCall.addLine p1 p2 t => some (p1, p2, t)
  | GmshCall.addCircleArc p1 _ p2 t => some (p1, p2, t)
  | _ => none

def createdCurves (cs : List GmshCall) : List (ℕ × ℕ × ℕ) :=
  cs.filterMap curveOf

/-- The angles (in units of pi) of the `rotate` calls of a trace, in order. -/
def rotationAngles (cs : List GmshCall) : List ℚ :=
  cs.filterMap fun c =>
    match c with
    | GmshCall.rotate _ _ _ _ _ _ _ a => some a
    | _ => none

/-- The `extrude` calls of a trace: swept dim-tags, displacement,
`numElements`. -/
def extrudeOf : GmshCall → Option (List (ℕ × ℕ) × (ℚ × ℚ × ℚ) × List ℕ)
  | GmshCall.extrude dt dx dy dz ne => some (dt, (dx, dy, dz), ne)
  | _ => none

/-- The tags of the `addPoint` calls of a trace, in order. -/
def pointTags (cs : List GmshCall) : List ℕ :=
  cs.filterMap fun c =>
    match c with
    | GmshCall.addPoint _ _ _ _ t => some t
    | _ => none

/-- The physical-group assignments of a trace: dimension, entity tags,
group id. -/
def physGroups (cs : List GmshCall) : List (ℕ × List ℕ × ℕ) :=
  cs.filterMap fun c =>
    match c with
    | GmshCall.addPhysicalGroup d ts g => some (d, ts, g)
    | _ => none

/-- The argument lists of the `copy` calls of a trace, in order. -/
def copyDimTags (cs : List GmshCall) : List (List (ℕ × ℕ)) :=
  cs.filterMap fun c =>
    match c with
    | GmshCall.copy dt => some dt
    | _ => none

/-- The physical-group names of a trace: dimension, group id, name. -/
def physNames (cs : List GmshCall) : List (ℕ × ℕ × String) :=
  cs.filterMap fun c =>
    match c with
    | GmshCall.setPhysicalName d g nm => some (d, g, nm)
    | _ => none

/-! ### Concrete fixtures -/

/-- A straight segment starting at `(1, 0)`. -/
def segLine1 : Seg := ⟨SegKind.line, (1, 0), (0, 0)⟩

/-- An arc segment starting at `(0, 1)` with center `(0, 0)`. -/
def segArc2 : Seg := ⟨SegKind.arc, (0, 1), (0, 0)⟩

/-- A segment of a kind that is neither a straight line nor an arc. -/
def segOther : Seg := ⟨SegKind.other, (1, 0), (0, 0)⟩

/-- A unit-square tooth boundary (4 straight segments), `L = 1/10`,
`Zs = 6`, stator. -/
def lamSquare : LamData :=
  ⟨[⟨SegKind.line, (0, 0), (0, 0)⟩, ⟨SegKind.line, (1, 0), (0, 0)⟩,
    ⟨SegKind.line, (1, 1), (0, 0)⟩, ⟨SegKind.line, (0, 1), (0, 0)⟩],
   1/10, 6, true⟩

/-- A lamination whose single boundary segment has an unrecognized kind. -/
def lamOther : LamData := ⟨[segOther], 1, 1, true⟩

/-- A lamination source whose tooth-boundary extraction fails. -/
def lamSourceBad : LamSource :=
  ⟨Except.error ("no tooth"), Except.ok 1, Except.ok 6, true⟩

/-- Replace a segment of unrecognized kind by a straight segment with the
same data (the source's `isinstance(line, Arc)` dispatch cannot tell the
two apart). -/
def lineize (s : Seg) : Seg :=
  if s.kind = SegKind.arc then s else ⟨SegKind.line, s.zbegin, s.zcenter⟩

/-- The `(start, terminal, tag)` triple created by the source's curve loop
for curve number `k` out of `n`: the closing curve (`k = n`) ends at point
handle `1`, every other curve at `k + 1`. -/
def curveSpec (n k : ℕ) : ℕ × ℕ × ℕ :=
  if k = n then (k, 1, k) else (k, k + 1, k)

/-! ### Helper lemmas -/

lemma createdCurves_cons_none {c : GmshCall} (h : curveOf c = none) (cs : List GmshCall) :
    createdCurves (c :: cs) = createdCurves cs := by
  simp [createdCurves, List.filterMap_cons, h]

lemma createdCurves_cons_some {c : GmshCall} {t : ℕ × ℕ × ℕ} (h : curveOf c = some t)
    (cs : List GmshCall) : createdCurves (c :: cs) = t :: createdCurves cs := by
  simp [createdCurves, List.filterMap_cons, h]

/-- The curves created by the source's curve loop, fully characterized:
starting at `NLine = nline`, the loop over `segs` creates the triples
`curveSpec n k` for `k = nline + 1, ..., nline + segs.length`. -/
lemma createdCurves_curveCalls (L ms : ℚ) (n : ℕ) :
    ∀ (segs : List Seg) (nline npoint : ℕ),
      createdCurves (curveCalls L ms n segs nline npoint)
        = (List.range' (nline + 1) segs.length).map (curveSpec n) := by
  intro segs
  induction segs with
  | nil => intro nline npoint; simp [curveCalls, createdCurves]
  | cons s rest ih =>
    intro nline npoint
    simp only [createdCurves] at ih
    rw [List.length_cons, List.range'_succ, List.map_cons]
    by_cases hn : nline + 1 = n <;> by_cases hk : s.kind = SegKind.arc <;>
      simp [curveCalls, hn, hk, createdCurves, List.filterMap_cons, curveOf, ih, curveSpec]

/-- Every call issued by the point loop is an `addPoint`. -/
lemma mem_pointCalls {lines : List Seg} {L ms : ℚ} {c : GmshCall}
    (hc : c ∈ pointCalls lines L ms) :
    ∃ x y z sz t, c = GmshCall.addPoint x y z sz t := by
  simp only [pointCalls, List.mem_map] at hc
  obtain ⟨p, _, rfl⟩ := hc
  exact ⟨_, _, _, _, _, rfl⟩

/-- Every call issued by the curve loop is an `addPoint`, an `addLine` or an
`addCircleArc`. -/
lemma mem_curveCalls {L ms : ℚ} {n : ℕ} :
    ∀ {segs : List Seg} {nline npoint : ℕ} {c : GmshCall},
      c ∈ curveCalls L ms n segs nline npoint →
        (∃ x y z sz t, c = GmshCall.addPoint x y z sz t)
        ∨ (∃ a b t, c = GmshCall.addLine a b t)
        ∨ (∃ a b d t, c = GmshCall.addCircleArc a b d t) := by
  intro segs
  induction segs with
  | nil => intro nline npoint c hc; simp [curveCalls] at hc
  | cons s rest ih =>
    intro nline npoint c hc
    by_cases hn : nline + 1 = n <;> by_cases hk : s.kind = SegKind.arc <;>
      simp only [curveCalls, hn, hk, if_pos, if_neg, if_true, if_false,
        List.mem_cons, reduceIte] at hc <;>
      [skip; skip; skip; skip] <;>
      rcases hc with rfl | hc <;>
      first
        | exact Or.inl ⟨_, _, _, _, _, rfl⟩
        | exact Or.inr (Or.inl ⟨_, _, _, rfl⟩)
        | exact Or.inr (Or.inr ⟨_, _, _, _, rfl⟩)
        | (rcases hc with rfl | hc
           · first
              | exact Or.inl ⟨_, _, _, _, _, rfl⟩
              | exact Or.inr (Or.inl ⟨_, _, _, rfl⟩)
              | exact Or.inr (Or.inr ⟨_, _, _, _, rfl⟩)
           · exact ih hc)
        | exact ih hc

/-- Every call issued by the replication loop is a `copy` or a `rotate`. -/
lemma mem_replicateCalls {Zs : ℕ} {L : ℚ} {c : GmshCall}
    (hc : c ∈ replicateCalls Zs L) :
    (∃ dt, c = GmshCall.copy dt)
    ∨ (∃ dt x y z ax ay az a, c = GmshCall.rotate dt x y z ax ay az a) := by
  simp only [replicateCalls, List.mem_flatten, List.mem_map] at hc
  obtain ⟨l, ⟨ii, _, rfl⟩, hcl⟩ := hc
  simp only [List.mem_cons, List.mem_singleton, List.not_mem_nil, or_false] at hcl
  rcases hcl with rfl | rfl
  · exact Or.inl ⟨_, rfl⟩
  · exact Or.inr ⟨_, _, _, _, _, _, _, _, rfl⟩

/-- Every call issued by the extrusion loop is an `extrude`. -/
lemma mem_extrudeCalls {surfs : List ℕ} {L : ℚ} {Nlayer : ℕ} {c : GmshCall}
    (hc : c ∈ extrudeCalls surfs L Nlayer) :
    ∃ dt dx dy dz ne, c = GmshCall.extrude dt dx dy dz ne := by
  simp only [extrudeCalls, List.mem_map] at hc
  obtain ⟨s, _, rfl⟩ := hc
  exact ⟨_, _, _, _, _, rfl⟩

/-- The rotation angles issued by the replication loop, in units of pi:
`(ii + 1) * 2 / 36` for `ii = 0, ..., Zs - 1` (the literal `36` from line 75
of the source). -/
lemma rotationAngles_replicateCalls (Zs : ℕ) (L : ℚ) :
    rotationAngles (replicateCalls Zs L)
      = (List.range Zs).map (fun ii : ℕ => ((ii : ℚ) + 1) * 2 / 36) := by
  induction Zs with
  | zero => rfl
  | succ m ih =>
    simp only [replicateCalls, rotationAngles, List.range_succ, List.map_append,
      List.flatten_append, List.filterMap_append] at ih ⊢
    rw [ih]
    rfl

/-- The replication loop issues exactly `Zs` `copy` calls, each copying the
original tooth surface `(2, 1)`. -/
lemma copyDimTags_replicateCalls (Zs : ℕ) (L : ℚ) :
    copyDimTags (replicateCalls Zs L) = List.replicate Zs [(2, 1)] := by
  induction Zs with
  | zero => rfl
  | succ m ih =>
    simp only [replicateCalls, copyDimTags, List.range_succ, List.map_append,
      List.flatten_append, List.filterMap_append] at ih ⊢
    rw [ih, List.replicate_succ']
    rfl

lemma createdCurves_pointCalls (lines : List Seg) (L ms : ℚ) :
    createdCurves (pointCalls lines L ms) = [] := by
  simp only [createdCurves, List.filterMap_eq_nil_iff]
  intro c hc
  obtain ⟨x, y, z, sz, t, rfl⟩ := mem_pointCalls hc
  rfl

lemma createdCurves_replicateCalls (Zs : ℕ) (L : ℚ) :
    createdCurves (replicateCalls Zs L) = [] := by
  simp only [createdCurves, List.filterMap_eq_nil_iff]
  intro c hc
  rcases mem_replicateCalls hc with ⟨dt, rfl⟩ | ⟨dt, x, y, z, ax, ay, az, a, rfl⟩ <;> rfl

lemma createdCurves_extrudeCalls (surfs : List ℕ) (L : ℚ) (Nlayer : ℕ) :
    createdCurves (extrudeCalls surfs L Nlayer) = [] := by
  simp only [createdCurves, List.filterMap_eq_nil_iff]
  intro c hc
  obtain ⟨dt, dx, dy, dz, ne, rfl⟩ := mem_extrudeCalls hc
  rfl

/-- The curves created over the whole tooth stage are exactly those of the
curve loop: `curveSpec n k` for `k = 1, ..., n` where `n` is the number of
boundary segments. -/
lemma createdCurves_toothCalls (lines : List Seg) (L ms : ℚ) :
    createdCurves (toothCalls lines L ms)
      = (List.range' 1 lines.length).map (curveSpec lines.length) := by
  have h1 := createdCurves_pointCalls lines L ms
  have h2 := createdCurves_curveCalls L ms lines.length lines 0 lines.length
  simp only [createdCurves, toothCalls, List.filterMap_append] at h1 h2 ⊢
  rw [h1, h2]
  simp [curveOf]

lemma curveSpec_tag (n k : ℕ) : (curveSpec n k).2.2 = k := by
  by_cases h : k = n <;> simp [curveSpec, h]

lemma curveSpec_start (n k : ℕ) : (curveSpec n k).1 = k := by
  by_cases h : k = n <;> simp [curveSpec, h]

/-- The extrusion loop's calls, observed: one `extrude` per surface with
displacement `(0, 0, L)` and layer list `[Nlayer]`. -/
lemma extrudeOf_extrudeCalls (surfs : List ℕ) (L : ℚ) (Nlayer : ℕ) :
    (extrudeCalls surfs L Nlayer).filterMap extrudeOf
      = surfs.map (fun s => ([(2, s)], ((0 : ℚ), (0 : ℚ), L), [Nlayer])) := by
  induction surfs with
  | nil => rfl
  | cons s rest ih => simp [extrudeCalls, List.filterMap_cons, extrudeOf, ih] at ih ⊢; exact ih

/-- All `extrude` calls of a full run's model-building phase come from the
extrusion loop, one per element of `surf_list`, in order. -/
lemma extrudeOf_buildCalls (lam : LamData) (ms : ℚ) (nl : ℕ) :
    (buildCalls lam ms nl).filterMap extrudeOf
      = (surf_list lam.Zs).map (fun s => ([(2, s)], ((0 : ℚ), (0 : ℚ), lam.L), [nl])) := by
  have h1 : (pointCalls lam.tooth lam.L ms).filterMap extrudeOf = [] :=
    List.filterMap_eq_nil_iff.mpr (fun c hc => by
      obtain ⟨_, _, _, _, _, rfl⟩ := mem_pointCalls hc; rfl)
  have h2 : (curveCalls lam.L ms lam.tooth.length lam.tooth 0 lam.tooth.length).filterMap
      extrudeOf = [] :=
    List.filterMap_eq_nil_iff.mpr (fun c hc => by
      rcases mem_curveCalls hc with ⟨_, _, _, _, _, rfl⟩ | ⟨_, _, _, rfl⟩ | ⟨_, _, _, _, rfl⟩ <;>
        rfl)
  have h3 : (replicateCalls lam.Zs lam.L).filterMap extrudeOf = [] :=
    List.filterMap_eq_nil_iff.mpr (fun c hc => by
      rcases mem_replicateCalls hc with ⟨_, rfl⟩ | ⟨_, _, _, _, _, _, _, _, rfl⟩ <;> rfl)
  simp [buildCalls, toothCalls, List.filterMap_append, h1, h2, h3,
    extrudeOf_extrudeCalls, List.filterMap_cons, extrudeOf]

/-- The model-building phase never calls `finalize`. -/
lemma finalize_not_mem_buildCalls (lam : LamData) (ms : ℚ) (nl : ℕ) :
    GmshCall.finalize ∉ buildCalls lam ms nl := by
  intro hc
  simp only [buildCalls, toothCalls, List.append_assoc, List.mem_append] at hc
  rcases hc with h | h | h | h | h | h | h | h
  · simp at h
  · obtain ⟨_, _, _, _, _, h'⟩ := mem_pointCalls h
    exact GmshCall.noConfusion h'
  · rcases mem_curveCalls h with ⟨_, _, _, _, _, h'⟩ | ⟨_, _, _, h'⟩ | ⟨_, _, _, _, h'⟩ <;>
      exact GmshCall.noConfusion h'
  · simp at h
  · rcases mem_replicateCalls h with ⟨_, h'⟩ | ⟨_, _, _, _, _, _, _, _, h'⟩ <;>
      exact GmshCall.noConfusion h'
  · simp at h
  · obtain ⟨_, _, _, _, _, h'⟩ := mem_extrudeCalls h
    exact GmshCall.noConfusion h'
  · simp at h

/-! ### Claim theorems -/

/-- C1: the claim fails on the code.  The replication loop of the source
(`for ii in range(Zs)`, lines 72-76) issues one `copy` per iteration, i.e.
`Zs` rotated duplicates of the tooth surface, so the "Lamination" physical
group receives `surf_list` with `Zs + 1` surfaces — the original plus `Zs`
copies, not the original plus `Zs - 1`.  In particular for replication
count 1 the group holds surfaces `[1, 2]`: a rotated copy is created. -/
theorem replicator_surface_count_off_by_one :
    (∀ (lam : LamData) (ms : ℚ) (Nlayer : ℕ),
        GmshCall.addPhysicalGroup 2 (surf_list lam.Zs) 2 ∈ buildCalls lam ms Nlayer)
    ∧ (∀ (Zs : ℕ) (L : ℚ),
        (surf_list Zs).length = Zs + 1
        ∧ (copyDimTags (replicateCalls Zs L)).length = Zs)
    ∧ surf_list 1 = [1, 2] := by
  refine ⟨fun lam ms nl => ?_, fun Zs L => ⟨?_, ?_⟩, rfl⟩
  · simp [buildCalls]
  · simp [surf_list]
  · rw [copyDimTags_replicateCalls]
    simp

/-- C2: the claim fails on the code.  The rotation angle of the `ii`-th
copy is `(ii + 1) * 2 * pi / 36` (line 75), the denominator being the fixed
literal `36` rather than the replication count: for `Zs = 6` the first copy
is rotated by `pi/18` (in units of pi: `1/18`), not by `2 * pi / 6` (in
units of pi: `1/3`). -/
theorem rotation_angle_uses_fixed_literal :
    (∀ (Zs : ℕ) (L : ℚ),
        rotationAngles (replicateCalls Zs L)
          = (List.range Zs).map (fun ii : ℕ => ((ii : ℚ) + 1) * 2 / 36))
    ∧ rotationAngles (replicateCalls 6 1) = [1/18, 1/9, 1/6, 2/9, 5/18, 1/3]
    ∧ (1/18 : ℚ) ≠ 1/3 := by
  refine ⟨rotationAngles_replicateCalls, ?_, by norm_num⟩
  rw [rotationAngles_replicateCalls]
  norm_num [List.range_succ]

/-- C3: the claim fails on the code.  For the tooth boundary
`[line, arc]`, the closing arc's center is registered as point `3`
(`NPoint = 3` after the increment on line 51), but the `addCircleArc` call
on line 53 passes `NPoint - 1 = 2` — the arc's own begin point — as the
center handle, not the newly registered center point `3`. -/
theorem last_arc_center_handle_mismatch :
    toothCalls [segLine1, segArc2] 1 1 =
      [GmshCall.addPoint 1 0 (-1/2) 1 1,
       GmshCall.addPoint 0 1 (-1/2) 1 2,
       GmshCall.addLine 1 2 1,
       GmshCall.addPoint 0 0 (-1/2) 1 3,
       GmshCall.addCircleArc 2 2 1 2,
       GmshCall.addCurveLoop [1, 2] 1,
       GmshCall.addPlaneSurface [1] 1,
       GmshCall.addPhysicalGroup 2 [1] 1,
       GmshCall.setPhysicalName 2 1 ("Tooth")]
    ∧ (2 : ℕ) ≠ 3 :=
  ⟨by rfl, by decide⟩

/-- Auxiliary for C4: the point loop only reads `zbegin`, which `lineize`
preserves. -/
lemma enumFrom_map_lineize_points (L ms : ℚ) :
    ∀ (lines : List Seg) (i : ℕ),
      ((lines.map lineize).enumFrom i).map
          (fun p => GmshCall.addPoint p.2.zbegin.1 p.2.zbegin.2 (-L / 2) ms (p.1 + 1))
        = (lines.enumFrom i).map
            (fun p => GmshCall.addPoint p.2.zbegin.1 p.2.zbegin.2 (-L / 2) ms (p.1 + 1)) := by
  intro lines
  induction lines with
  | nil => intro i; rfl
  | cons s rest ih =>
    intro i
    by_cases h : s.kind = SegKind.arc <;>
      simp [List.enumFrom_cons, lineize, h, ih]

lemma pointCalls_map_lineize (lines : List Seg) (L ms : ℚ) :
    pointCalls (lines.map lineize) L ms = pointCalls lines L ms := by
  simp only [pointCalls, List.enum]
  exact enumFrom_map_lineize_points L ms lines 0

/-- Auxiliary for C4: the curve loop's dispatch only tests whether a
segment's kind is `arc`, which `lineize` preserves; the emitted data
(`zcenter`, handles) is unchanged. -/
lemma curveCalls_map_lineize (L ms : ℚ) (n : ℕ) :
    ∀ (segs : List Seg) (nline npoint : ℕ),
      curveCalls L ms n (segs.map lineize) nline npoint
        = curveCalls L ms n segs nline npoint := by
  intro segs
  induction segs with
  | nil => intro nline npoint; rfl
  | cons s rest ih =>
    intro nline npoint
    by_cases hn : nline + 1 = n <;> by_cases hk : s.kind = SegKind.arc <;>
      simp [curveCalls, hn, hk, lineize, ih]

/-- C4 counterexample: on the one-segment boundary whose segment has an
unrecognized kind, the run completes successfully (no `GeometryError` is
possible on this path), its begin point is registered as point `1`, and a
straight line curve `(1, 1)` is created for it — the segment is silently
handled by the non-arc branch. -/
theorem unknown_kind_no_geometry_error :
    (gen_3D_mesh lamOther ("Lamination.msh") (1/200) 20 true true).1 = Except.ok ()
    ∧ pointTags (gen_3D_mesh lamOther ("Lamination.msh") (1/200) 20 true true).2 = [1]
    ∧ createdCurves (gen_3D_mesh lamOther ("Lamination.msh") (1/200) 20 true true).2
        = [(1, 1, 1)] :=
  ⟨rfl, rfl, rfl⟩

/-- C4 (amended): a boundary segment whose kind is neither line nor arc is
dispatched by the source's `isinstance(line, Arc)` test exactly as a
straight segment: replacing every unrecognized kind by `line` leaves the
whole run (outcome and backend trace) unchanged, and no error is signalled
— the run with intact backend succeeds. -/
theorem unknown_kind_treated_as_line (lam : LamData) (p : String) (ms : ℚ) (nl : ℕ)
    (mOk wOk : Bool) :
    gen_3D_mesh ⟨lam.tooth.map lineize, lam.L, lam.Zs, lam.is_stator⟩ p ms nl mOk wOk
        = gen_3D_mesh lam p ms nl mOk wOk
    ∧ (gen_3D_mesh lam p ms nl true true).1 = Except.ok () := by
  constructor
  · have hb : buildCalls ⟨lam.tooth.map lineize, lam.L, lam.Zs, lam.is_stator⟩ ms nl
        = buildCalls lam ms nl := by
      simp only [buildCalls, toothCalls, pointCalls_map_lineize, curveCalls_map_lineize,
        List.length_map]
    simp only [gen_3D_mesh, hb]
  · simp [gen_3D_mesh]

/-- C5 counterexample: when mesh generation fails, the run aborts with
`MeshGenerationError` and `gmsh.finalize()` is never invoked — the source
(lines 89-95) has no `try`/`finally`, so backend resources are not released
on this exit path. -/
theorem finalize_skipped_on_meshgen_failure :
    (gen_3D_mesh lamSquare ("Lamination.msh") (1/200) 2 false true).1
        = Except.error PipeError.meshGenerationError
    ∧ GmshCall.finalize ∉ (gen_3D_mesh lamSquare ("Lamination.msh") (1/200) 2 false true).2 := by
  refine ⟨rfl, ?_⟩
  intro hmem
  simp only [gen_3D_mesh, if_false, Bool.false_eq_true, if_true, List.mem_append,
    List.mem_singleton, reduceIte] at hmem
  rcases hmem with h | h
  · exact finalize_not_mem_buildCalls lamSquare (1/200) 2 h
  · exact GmshCall.noConfusion h

/-- C5 (amended): the backend `finalize` is invoked exactly on the
successful exit path: `finalize` appears in the run's trace iff the run
completed without a mesh-generation or write failure. -/
theorem finalize_iff_success (lam : LamData) (p : String) (ms : ℚ) (nl : ℕ)
    (mOk wOk : Bool) :
    GmshCall.finalize ∈ (gen_3D_mesh lam p ms nl mOk wOk).2
      ↔ (gen_3D_mesh lam p ms nl mOk wOk).1 = Except.ok () := by
  cases mOk <;> cases wOk <;>
    simp [gen_3D_mesh, finalize_not_mem_buildCalls lam ms nl]

/-- C6: for every non-empty tooth boundary, the curve loop of the Planar
Loop Builder creates exactly one curve per boundary segment, the created
curves carry the tags `1, ..., n` in creation order and exactly that tag
list is passed to `addCurveLoop`, the last curve's terminal point handle is
`1`, and the first curve's initial point handle is `1` — the loop is
closed. -/
theorem loop_builder_closure (lines : List Seg) (L ms : ℚ) (h : lines ≠ []) :
    (createdCurves (toothCalls lines L ms)).length = lines.length
    ∧ (createdCurves (toothCalls lines L ms)).map (fun c => c.2.2)
        = List.range' 1 lines.length
    ∧ GmshCall.addCurveLoop (List.range' 1 lines.length) 1 ∈ toothCalls lines L ms
    ∧ ((createdCurves (toothCalls lines L ms)).getLast?).map (fun c => c.2.1) = some 1
    ∧ ((createdCurves (toothCalls lines L ms)).head?).map (fun c => c.1) = some 1 := by
  have hn : lines.length ≠ 0 := fun hh => h (List.length_eq_zero.mp hh)
  refine ⟨?_, ?_, ?_, ?_, ?_⟩
  · rw [createdCurves_toothCalls]
    simp
  · rw [createdCurves_toothCalls, List.map_map]
    have hc : ((fun c : ℕ × ℕ × ℕ => c.2.2) ∘ curveSpec lines.length) = id := by
      funext k
      simp [curveSpec_tag, Function.comp]
    rw [hc, List.map_id]
  · simp [toothCalls]
  · rw [createdCurves_toothCalls, List.getLast?_map, List.getLast?_range']
    simp only [hn, if_false, Option.map_some']
    have he : 1 + lines.length - 1 = lines.length := by omega
    rw [he]
    simp [curveSpec]
  · rw [createdCurves_toothCalls, List.head?_map, List.head?_range']
    simp only [hn, if_false, Option.map_some']
    simp [curveSpec_start]

/-- Witness for `loop_builder_closure`: the unit-square tooth boundary
(4 straight segments). -/
theorem loop_builder_closure_witness :
    lamSquare.tooth ≠ []
    ∧ ((createdCurves (toothCalls lamSquare.tooth (1/10) (1/200))).length
          = lamSquare.tooth.length
       ∧ (createdCurves (toothCalls lamSquare.tooth (1/10) (1/200))).map (fun c => c.2.2)
           = List.range' 1 lamSquare.tooth.length
       ∧ GmshCall.addCurveLoop (List.range' 1 lamSquare.tooth.length) 1
           ∈ toothCalls lamSquare.tooth (1/10) (1/200)
       ∧ ((createdCurves (toothCalls lamSquare.tooth (1/10) (1/200))).getLast?).map
           (fun c => c.2.1) = some 1
       ∧ ((createdCurves (toothCalls lamSquare.tooth (1/10) (1/200))).head?).map
           (fun c => c.1) = some 1) :=
  ⟨by decide, loop_builder_closure lamSquare.tooth (1/10) (1/200) (by decide)⟩

/-- C7: for every `Nlayer ≥ 1`, the `extrude` calls of a full run are
exactly one per element of `surf_list` (the Replicator's ordered surface
set), in `surf_list` order, each with displacement `(0, 0, L)` and uniform
layer list `[Nlayer]`; under the backend handle model each such call yields
one volume, the volumes being `1, ..., surf_list.length` in the same
order. -/
theorem extruder_one_volume_per_surface (lam : LamData) (p : String) (ms : ℚ)
    (Nlayer : ℕ) (h : 1 ≤ Nlayer) (mOk wOk : Bool) :
    (gen_3D_mesh lam p ms Nlayer mOk wOk).2.filterMap extrudeOf
        = (surf_list lam.Zs).map (fun s => ([(2, s)], ((0 : ℚ), (0 : ℚ), lam.L), [Nlayer]))
    ∧ extrudeVolumes (surf_list lam.Zs) = List.range' 1 (surf_list lam.Zs).length := by
  refine ⟨?_, rfl⟩
  have hb := extrudeOf_buildCalls lam ms Nlayer
  cases mOk <;> cases wOk <;>
    simp [gen_3D_mesh, List.filterMap_append, hb, List.filterMap_cons, extrudeOf]

/-- Witness for `extruder_one_volume_per_surface`: the unit-square
lamination with `Nlayer = 2`. -/
theorem extruder_one_volume_per_surface_witness :
    1 ≤ 2
    ∧ ((gen_3D_mesh lamSquare ("Lamination.msh") (1/200) 2 true true).2.filterMap extrudeOf
          = (surf_list lamSquare.Zs).map
              (fun s => ([(2, s)], ((0 : ℚ), (0 : ℚ), lamSquare.L), [2]))
       ∧ extrudeVolumes (surf_list lamSquare.Zs)
          = List.range' 1 (surf_list lamSquare.Zs).length) :=
  ⟨by decide,
   extruder_one_volume_per_surface lamSquare ("Lamination.msh") (1/200) 2 (by decide) true true⟩

/-- C8: the claim fails on the code.  The Region Tagger groups volumes
`1, ..., Zs` (the source's `list(range(1, Zs + 1))`, line 83) under the
dimension-3 physical group with id 1, named "stator"/"rotor" by the
`is_stator` flag — but the Axial Extruder produced `Zs + 1` volumes (one
per surface of `surf_list`), so the last volume `Zs + 1` is left out of the
group. -/
theorem tagger_leaves_last_volume_out (lam : LamData) (p : String) (ms : ℚ) (nl : ℕ) :
    GmshCall.addPhysicalGroup 3 (List.range' 1 lam.Zs) 1
        ∈ (gen_3D_mesh lam p ms nl true true).2
    ∧ GmshCall.setPhysicalName 3 1 (if lam.is_stator then ("stator") else ("rotor"))
        ∈ (gen_3D_mesh lam p ms nl true true).2
    ∧ extrudeVolumes (surf_list lam.Zs) = List.range' 1 (lam.Zs + 1)
    ∧ lam.Zs + 1 ∉ List.range' 1 lam.Zs
    ∧ extrudeVolumes (surf_list 1) = [1, 2] := by
  refine ⟨?_, ?_, ?_, ?_, rfl⟩
  · simp [gen_3D_mesh, buildCalls]
  · simp [gen_3D_mesh, buildCalls]
  · simp [extrudeVolumes, surf_list]
  · simp only [List.mem_range'_1]
    omega

/-- C9: the pipeline is deterministic — two runs on identical inputs (each
against a fresh registry; the model threads no state between runs) produce
identical backend call sequences, hence identical physical-group
assignments, names and point-handle sequences. -/
theorem pipeline_deterministic (lam : LamData) (p : String) (ms : ℚ) (nl : ℕ)
    (mOk wOk : Bool) (r1 r2 : Except PipeError Unit × List GmshCall)
    (h1 : r1 = gen_3D_mesh lam p ms nl mOk wOk)
    (h2 : r2 = gen_3D_mesh lam p ms nl mOk wOk) :
    r1.2 = r2.2
    ∧ physGroups r1.2 = physGroups r2.2
    ∧ physNames r1.2 = physNames r2.2
    ∧ pointTags r1.2 = pointTags r2.2 := by
  subst h1
  subst h2
  exact ⟨rfl, rfl, rfl, rfl⟩

/-- Witness for `pipeline_deterministic`: two runs of the unit-square
lamination. -/
theorem pipeline_deterministic_witness :
    (gen_3D_mesh lamSquare ("Lamination.msh") (1/200) 2 true true).2
        = (gen_3D_mesh lamSquare ("Lamination.msh") (1/200) 2 true true).2
    ∧ physGroups (gen_3D_mesh lamSquare ("Lamination.msh") (1/200) 2 true true).2
        = physGroups (gen_3D_mesh lamSquare ("Lamination.msh") (1/200) 2 true true).2
    ∧ physNames (gen_3D_mesh lamSquare ("Lamination.msh") (1/200) 2 true true).2
        = physNames (gen_3D_mesh lamSquare ("Lamination.msh") (1/200) 2 true true).2
    ∧ pointTags (gen_3D_mesh lamSquare ("Lamination.msh") (1/200) 2 true true).2
        = pointTags (gen_3D_mesh lamSquare ("Lamination.msh") (1/200) 2 true true).2 :=
  pipeline_deterministic lamSquare ("Lamination.msh") (1/200) 2 true true
    (gen_3D_mesh lamSquare ("Lamination.msh") (1/200) 2 true true)
    (gen_3D_mesh lamSquare ("Lamination.msh") (1/200) 2 true true) rfl rfl

/-- C10: if reading the tooth boundary, the lamination length `L1` or the
slot count `Zs` fails, the run ends before `gmsh.initialize` (line 33 comes
after all three reads): the backend trace is empty — no backend model or
primitive exists — and the failure surfaces as a `GeometryError`. -/
theorem extraction_failure_before_backend (lam : LamSource) (p : String) (ms : ℚ)
    (nl : ℕ) (mOk wOk : Bool)
    (h : (∃ e, lam.get_surface_tooth = Except.error e)
         ∨ (∃ e, lam.L1 = Except.error e)
         ∨ (∃ e, lam.slot_Zs = Except.error e)) :
    (gen_3D_mesh_run lam p ms nl mOk wOk).2 = []
    ∧ ∃ e, (gen_3D_mesh_run lam p ms nl mOk wOk).1
        = Except.error (PipeError.geometryError e) := by
  rcases htooth : lam.get_surface_tooth with e | tooth
  · exact ⟨by simp [gen_3D_mesh_run, htooth], e, by simp [gen_3D_mesh_run, htooth]⟩
  · rcases hL : lam.L1 with e | L
    · exact ⟨by simp [gen_3D_mesh_run, htooth, hL], e, by simp [gen_3D_mesh_run, htooth, hL]⟩
    · rcases hZ : lam.slot_Zs with e | Zs
      · exact ⟨by simp [gen_3D_mesh_run, htooth, hL, hZ], e,
          by simp [gen_3D_mesh_run, htooth, hL, hZ]⟩
      · exfalso
        rcases h with ⟨e, he⟩ | ⟨e, he⟩ | ⟨e, he⟩ <;>
          simp_all

/-- Witness for `extraction_failure_before_backend`: a lamination whose
tooth-boundary extraction fails. -/
theorem extraction_failure_before_backend_witness :
    ((∃ e, lamSourceBad.get_surface_tooth = Except.error e)
     ∨ (∃ e, lamSourceBad.L1 = Except.error e)
     ∨ (∃ e, lamSourceBad.slot_Zs = Except.error e))
    ∧ ((gen_3D_mesh_run lamSourceBad ("Lamination.msh") (1/200) 20 true true).2 = []
       ∧ ∃ e, (gen_3D_mesh_run lamSourceBad ("Lamination.msh") (1/200) 20 true true).1
           = Except.error (PipeError.geometryError e)) :=
  ⟨Or.inl ⟨("no tooth"), rfl⟩,
   extraction_failure_before_backend lamSourceBad ("Lamination.msh") (1/200) 20 true true
     (Or.inl ⟨("no tooth"), rfl⟩)⟩

end Pyleecan
